import Mathlib

/-!
Verification of the fill-in-the-blank generation service
(`src/nlp-service/app.py`) against its specification.

The service tokenizes input text (via spaCy, an external collaborator),
filters tokens for blanking eligibility, selects a blank set according to one
of six variation policies, and renders a blanked text plus a first-letter
clue string, preserving the original whitespace.

Modelling conventions:
* spaCy tokens are modelled by the `Token` structure carrying exactly the
  fields the service reads: `text`, `whitespace_`, `is_stop`, `pos_`,
  `ent_type_`.
* The document is a `List Token`; Python set membership of spaCy tokens is
  by object identity, so blank sets are modelled as `Finset ℕ` of token
  positions in the document.
* Python `float` arithmetic on the ratio parameters is idealised as exact
  rational arithmetic (`ℚ`); decimal literals denote the corresponding
  exact rationals.
* `random.sample` is modelled by an abstract function
  `sample : ℕ → List ℕ → ℕ → List ℕ` (generator state, population, k)
  constrained by `SampleSpec`; the global generator state is a `ℕ` and
  `random.seed(seed)` replaces it by the seed.
* JSON values fed to `int()` / `float()` are modelled by `PyVal`: either a
  number, or a value on which the conversion raises.
-/

/-- A spaCy token as consumed by the service: surface text, trailing
whitespace (`t.whitespace_`), stop-word flag (`t.is_stop`), coarse
part-of-speech tag (`t.pos_`), and named-entity type (`t.ent_type_`,
empty string when none). -/
structure Token where
  text : String
  whitespace_ : String
  is_stop : Bool
  pos_ : String
  ent_type_ : String
deriving DecidableEq, Repr

/-- ASCII letter test, the character class `[A-Za-z]`. -/
def isAsciiLetter (c : Char) : Bool :=
  ('A' ≤ c && c ≤ 'Z') || ('a' ≤ c && c ≤ 'z')

/-- The function `is_word(token_text)` from the source:
`bool(re.match(r"^[A-Za-z]+$", token_text))`.
Python `re.match` anchors at the start, and without `re.MULTILINE` the
anchor `$` matches at the end of the string or just before a newline at
the end of the string.  So the regex accepts one or more ASCII letters,
optionally followed by a single trailing newline character. -/
def is_word (s : String) : Bool :=
  (!s.data.isEmpty && s.data.all isAsciiLetter) ||
    (!s.data.dropLast.isEmpty && s.data.dropLast.all isAsciiLetter &&
      s.data.getLast? == some '\n')

/-- The function `eligible_token(t)` from the source:
`is_word(t.text) and (not t.is_stop) and len(t.text) >= 4`. -/
def eligible_token (t : Token) : Bool :=
  is_word t.text && !t.is_stop && decide (4 ≤ t.text.length)

/-- The candidate positions: `[t for t in doc if eligible_token(t)]`,
represented by the positions of the eligible tokens in the document. -/
def candidates (doc : List Token) : List ℕ :=
  (doc.enum.filter (fun p => eligible_token p.2)).map Prod.fst

/-- Python whitespace characters stripped by `str.strip()` (ASCII part):
space, tab, newline, carriage return, vertical tab, form feed. -/
def isPySpace (c : Char) : Bool :=
  c == ' ' || c == '\t' || c == '\n' || c == '\r' ||
    c == Char.ofNat 11 || c == Char.ofNat 12

/-- Python `s.strip()`: remove leading and trailing whitespace. -/
def pyStrip (s : String) : String :=
  String.mk (((s.data.dropWhile isPySpace).reverse.dropWhile isPySpace).reverse)

/-- Python `"".join(parts)`: concatenation of a list of strings. -/
def joinAll (parts : List String) : String :=
  parts.foldr (fun a b => a ++ b) ""

/-- Python `candidates[::2]`: every other element, starting at index 0. -/
def everyOther {α : Type} : List α → List α
  | [] => []
  | [a] => [a]
  | a :: _ :: rest => a :: everyOther rest

/-- Python `t.text[0]`: the first character of the token text, as a
one-character string.  (Python raises `IndexError` on an empty string;
spaCy token texts are never empty, and the blank set only ever holds
eligible tokens, whose texts have length at least 4.) -/
def firstCharStr (s : String) : String :=
  match s.data with
  | [] => ""
  | c :: _ => String.mk [c]

/-- One step of the output-building loop of `generate` (lines 142-154):
given the accumulated `out_tokens` and `clue_tokens` lists and the pair of a
token with its document position, append the blanked or verbatim form and
then the trailing whitespace when present. -/
def renderStep (blank_set : Finset ℕ) (acc : List String × List String)
    (p : ℕ × Token) : List String × List String :=
  let t := p.2
  let acc' :=
    if p.1 ∈ blank_set then
      let first := firstCharStr t.text
      (acc.1 ++ [first ++ String.mk (List.replicate (t.text.length - 1) '_')],
       acc.2 ++ [first])
    else
      (acc.1 ++ [t.text], acc.2 ++ [t.text])
  if t.whitespace_ ≠ "" then
    (acc'.1 ++ [t.whitespace_], acc'.2 ++ [t.whitespace_])
  else
    acc'

/-- The renderer (lines 139-157 of the source): walk the document in order
building `out_tokens` and `clue_tokens`, join and strip both. -/
def render (doc : List Token) (blank_set : Finset ℕ) : String × String :=
  let acc := doc.enum.foldl (renderStep blank_set) ([], [])
  (pyStrip (joinAll acc.1), pyStrip (joinAll acc.2))

/-- A JSON parameter value as seen by `int()` / `float()`: either a number,
or a value on which the conversion raises (e.g. a non-numeric string or a
list); `tag` is a human-readable stand-in for the offending value. -/
inductive PyVal where
  | num (q : ℚ)
  | nonNumeric (tag : String)
deriving DecidableEq, Repr

/-- Python `int()` truncates toward zero; it raises on non-numeric input. -/
def pyInt : PyVal → Except String ℤ
  | .num q => .ok (if 0 ≤ q then ⌊q⌋ else ⌈q⌉)
  | .nonNumeric tag => .error ("invalid literal for int(): " ++ tag)

/-- Python `float()`; it raises on non-numeric input. -/
def pyFloat : PyVal → Except String ℚ
  | .num q => .ok q
  | .nonNumeric tag => .error ("could not convert to float: " ++ tag)

/-- The JSON request body: `data.get(...)` fields of the `/generate`
endpoint.  `none` models an absent field. -/
structure GenRequest where
  text : String
  variation_type : Option String
  blank_ratio : Option PyVal
  seed : Option ℕ
  attempt_number : Option PyVal
  base_blank_ratio : Option PyVal
  step : Option PyVal
  max_blank_ratio : Option PyVal
  difficulty_level : Option PyVal
deriving DecidableEq, Repr

/-- The parameters after extraction and numeric conversion
(lines 26-42 of the source). -/
structure Params where
  text : String
  variation_type : String
  blank_ratio : Option PyVal
  seed : Option ℕ
  attempt_number : ℤ
  base_blank_ratio : ℚ
  step : ℚ
  max_blank_ratio : ℚ
  difficulty_level : ℤ
deriving DecidableEq, Repr

/-- Parameter extraction (lines 26-42): defaults are applied by
`data.get`, and `attempt_number`, `base_blank_ratio`, `step`,
`max_blank_ratio`, `difficulty_level` are converted by `int()` / `float()`
in that order; a conversion failure raises (propagates as `.error`).
Note this all happens before the empty-text check. -/
def resolveParams (req : GenRequest) : Except String Params :=
  match pyInt (req.attempt_number.getD (.num 1)) with
  | .error e => .error e
  | .ok attempt_number =>
    match pyFloat (req.base_blank_ratio.getD (.num (0.30 : ℚ))) with
    | .error e => .error e
    | .ok base_blank_ratio =>
      match pyFloat (req.step.getD (.num (0.15 : ℚ))) with
      | .error e => .error e
      | .ok stepv =>
        match pyFloat (req.max_blank_ratio.getD (.num (0.85 : ℚ))) with
        | .error e => .error e
        | .ok max_blank_ratio =>
          match pyInt (req.difficulty_level.getD (.num 1)) with
          | .error e => .error e
          | .ok difficulty_level =>
            .ok ⟨req.text, req.variation_type.getD "ALL_BLANK_FIRST_LETTERS",
              req.blank_ratio, req.seed, attempt_number, base_blank_ratio,
              stepv, max_blank_ratio, difficulty_level⟩

/-- The `DIFFICULTY_LEVEL_BLANKS` table (line 123):
`{1: 0.25, 2: 0.50, 3: 0.75, 4: 1.00}` with `.get(level, 0.25)`. -/
def level_to_ratio (level : ℤ) : ℚ :=
  if level = 1 then 0.25
  else if level = 2 then 0.50
  else if level = 3 then 0.75
  else if level = 4 then 1.00
  else 0.25

/-- Blank-set selection (lines 53-136): dispatch on `variation_type`.
`sample g pop k` models `random.sample(pop, k)` drawn with generator state
`g`.  Returns `.ok none` for an unknown variation type (the 400 path),
`.error` when `float(blank_ratio)` raises, and `.ok (some B)` otherwise. -/
def selectBlankSet (sample : ℕ → List ℕ → ℕ → List ℕ) (g : ℕ)
    (variation_type : String) (blank_ratio : Option PyVal)
    (base_blank_ratio stepv max_blank_ratio : ℚ)
    (attempt_number difficulty_level : ℤ)
    (doc : List Token) : Except String (Option (Finset ℕ)) :=
  let cands := candidates doc
  if variation_type = "ALL_BLANK_FIRST_LETTERS" then
    .ok (some cands.toFinset)
  else if variation_type = "RANDOM_BLANKS" then
    match (match blank_ratio with
           | some v => pyFloat v
           | none => .ok (0.40 : ℚ)) with
    | .error e => .error e
    | .ok ratio0 =>
      let ratio := max 0 (min 1 ratio0)
      if cands.isEmpty then
        .ok (some ∅)
      else
        let k := (max 1 ⌊(cands.length : ℚ) * ratio⌋).toNat
        .ok (some (sample g cands (min k cands.length)).toFinset)
  else if variation_type = "KEY_TERMS_ONLY" then
    .ok (some (((doc.enum.filter (fun p => eligible_token p.2 &&
      (p.2.pos_ == "NOUN" || p.2.pos_ == "PROPN" || p.2.ent_type_ != "")))).map
        Prod.fst).toFinset)
  else if variation_type = "EVERY_OTHER_WORD" then
    .ok (some (everyOther cands).toFinset)
  else if variation_type = "INCREASING_DIFFICULTY" then
    match (match blank_ratio with
           | some v => pyFloat v
           | none => .ok (base_blank_ratio + stepv * ((attempt_number : ℚ) - 1))) with
    | .error e => .error e
    | .ok ratio0 =>
      let ratio := max 0 (min max_blank_ratio ratio0)
      if cands.isEmpty then
        .ok (some ∅)
      else if 1 ≤ ratio then
        .ok (some cands.toFinset)
      else
        let k := (max 1 ⌊(cands.length : ℚ) * ratio⌋).toNat
        .ok (some (sample g cands (min k cands.length)).toFinset)
  else if variation_type = "DIFFICULTY_LEVEL_BLANKS" then
    let ratio := level_to_ratio difficulty_level
    if cands.isEmpty then
      .ok (some ∅)
    else if 1 ≤ ratio then
      .ok (some cands.toFinset)
    else
      let k := (max 1 ⌊(cands.length : ℚ) * ratio⌋).toNat
      .ok (some (sample g cands (min k cands.length)).toFinset)
  else
    .ok none

/-- The response of the `/generate` endpoint: either a JSON error with an
HTTP status code, or the success payload. -/
inductive GenResponse where
  | httpError (status : ℕ) (error : String)
  | ok (blanked_text first_letter_clues : String)
deriving DecidableEq, Repr

instance {ε α : Type} [DecidableEq ε] [DecidableEq α] :
    DecidableEq (Except ε α) := fun x y =>
  match x, y with
  | .error a, .error b =>
    if h : a = b then isTrue (by rw [h])
    else isFalse (fun hc => absurd (by injection hc) h)
  | .error _, .ok _ => isFalse (fun hc => Except.noConfusion hc)
  | .ok _, .error _ => isFalse (fun hc => Except.noConfusion hc)
  | .ok a, .ok b =>
    if h : a = b then isTrue (by rw [h])
    else isFalse (fun hc => absurd (by injection hc) h)

/-- The `/generate` handler (lines 22-162): extract and convert parameters,
reject empty text with a 400, reseed the generator when `seed` is given,
tokenize (via the external `tokenize`, modelling `nlp(text)`), select the
blank set, reject an unknown variation type with a 400, render.  A Python
exception (failed numeric conversion) surfaces as `.error`; `g0` is the
incoming global random-generator state. -/
def generate (tokenize : String → List Token)
    (sample : ℕ → List ℕ → ℕ → List ℕ) (g0 : ℕ)
    (req : GenRequest) : Except String GenResponse :=
  match resolveParams req with
  | .error e => .error e
  | .ok p =>
    if pyStrip p.text = "" then
      .ok (.httpError 400 "text is required")
    else
      match selectBlankSet sample
          (match p.seed with
           | some s => s
           | none => g0)
          p.variation_type p.blank_ratio
          p.base_blank_ratio p.step p.max_blank_ratio
          p.attempt_number p.difficulty_level (tokenize p.text) with
      | .error e => .error e
      | .ok none =>
        .ok (.httpError 400 ("Unknown variation_type: " ++ p.variation_type))
      | .ok (some blank_set) =>
        .ok (.ok (render (tokenize p.text) blank_set).1
          (render (tokenize p.text) blank_set).2)

/-- Specification of `random.sample(pop, k)` for a duplicate-free
population and `k ≤ len(pop)`: the result has `k` elements, is
duplicate-free, and is drawn from the population (without replacement). -/
def SampleSpec (sample : ℕ → List ℕ → ℕ → List ℕ) : Prop :=
  ∀ g pop k, k ≤ pop.length → pop.Nodup →
    (sample g pop k).length = k ∧ (sample g pop k).Nodup ∧
      ∀ x ∈ sample g pop k, x ∈ pop

/-- A concrete sampler (take the first `k`); used to instantiate witnesses. -/
def sampleTake (g : ℕ) (pop : List ℕ) (k : ℕ) : List ℕ :=
  let _ := g
  pop.take k

/-- The spec's eligibility wording: the token text "consists purely of
ASCII letters". -/
def isPureAlphabetic (s : String) : Bool :=
  !s.data.isEmpty && s.data.all isAsciiLetter

/-- Spec-side renderer contribution of one positioned token to the
blanked-text stream: a blank-set member contributes its first character
followed by `length - 1` underscores, any other token its original text;
in either case the token's trailing whitespace follows. -/
def specBlankedContrib (B : Finset ℕ) (p : ℕ × Token) : String :=
  (if p.1 ∈ B then
    firstCharStr p.2.text ++ String.mk (List.replicate (p.2.text.length - 1) '_')
  else p.2.text) ++ p.2.whitespace_

/-- Spec-side renderer contribution of one positioned token to the clue
stream: a blank-set member contributes just its first character, any other
token its original text, followed by the trailing whitespace. -/
def specClueContrib (B : Finset ℕ) (p : ℕ × Token) : String :=
  (if p.1 ∈ B then firstCharStr p.2.text else p.2.text) ++ p.2.whitespace_

/-- The list of strings a positioned token appends to `out_tokens` in one
loop iteration. -/
def outParts (B : Finset ℕ) (p : ℕ × Token) : List String :=
  (if p.1 ∈ B then
    [firstCharStr p.2.text ++ String.mk (List.replicate (p.2.text.length - 1) '_')]
  else [p.2.text]) ++
    (if p.2.whitespace_ ≠ "" then [p.2.whitespace_] else [])

/-- The list of strings a positioned token appends to `clue_tokens` in one
loop iteration. -/
def clueParts (B : Finset ℕ) (p : ℕ × Token) : List String :=
  (if p.1 ∈ B then [firstCharStr p.2.text] else [p.2.text]) ++
    (if p.2.whitespace_ ≠ "" then [p.2.whitespace_] else [])

/-- The six recognised variation types, in dispatch order. -/
def variationTypes : List String :=
  ["ALL_BLANK_FIRST_LETTERS", "RANDOM_BLANKS", "KEY_TERMS_ONLY",
   "EVERY_OTHER_WORD", "INCREASING_DIFFICULTY", "DIFFICULTY_LEVEL_BLANKS"]

/-- The variation types whose selection never consults the random
generator. -/
def nonRandomTypes : List String :=
  ["ALL_BLANK_FIRST_LETTERS", "KEY_TERMS_ONLY", "EVERY_OTHER_WORD"]

/-- Modelled from the spec: the spaCy tokenization (the external
tokenizer, absent from this repository) of "The quick brown fox jumps" —
five word tokens with single-space trailing whitespace except the last;
"The" is an English stop word, the others are not; the candidate tokens
(length ≥ 4, non-stop, alphabetic) are "quick", "brown", "jumps" as the
spec's scenario states. -/
def docFox : List Token :=
  [⟨"The", " ", true, "DET", ""⟩,
   ⟨"quick", " ", false, "ADJ", ""⟩,
   ⟨"brown", " ", false, "ADJ", ""⟩,
   ⟨"fox", " ", false, "NOUN", ""⟩,
   ⟨"jumps", "", false, "VERB", ""⟩]

/-- A tokenizer stub returning `docFox`, standing in for `nlp` on the
spec's scenario input. -/
def nlpFox : String → List Token := fun _ => docFox

/-- The spec's scenario request: text "The quick brown fox jumps" with
variation type `EVERY_OTHER_WORD` and no further parameters. -/
def reqFox : GenRequest :=
  ⟨"The quick brown fox jumps", some "EVERY_OTHER_WORD",
   none, none, none, none, none, none, none⟩

theorem sampleTake_spec : SampleSpec sampleTake := by
  intro g pop k hk hnd
  refine ⟨?_, ?_, ?_⟩
  · simp [sampleTake, List.length_take, Nat.min_eq_left hk]
  · exact hnd.sublist (List.take_sublist k pop)
  · intro x hx
    exact List.take_subset k pop hx

theorem joinAll_append (l1 l2 : List String) :
    joinAll (l1 ++ l2) = joinAll l1 ++ joinAll l2 := by
  induction l1 with
  | nil => simp [joinAll, String.empty_append]
  | cons a l ih =>
    show a ++ joinAll (l ++ l2) = (a ++ joinAll l) ++ joinAll l2
    rw [ih, String.append_assoc]

theorem joinAll_single (a : String) : joinAll [a] = a :=
  String.append_empty a

theorem joinAll_flatten (L : List (List String)) :
    joinAll L.flatten = joinAll (L.map joinAll) := by
  induction L with
  | nil => rfl
  | cons x L ih =>
    show joinAll (x ++ L.flatten) = joinAll x ++ joinAll (L.map joinAll)
    rw [joinAll_append, ih]

theorem renderStep_eq (B : Finset ℕ) (acc : List String × List String)
    (p : ℕ × Token) :
    renderStep B acc p = (acc.1 ++ outParts B p, acc.2 ++ clueParts B p) := by
  by_cases h1 : p.1 ∈ B <;> by_cases h2 : p.2.whitespace_ = "" <;>
    simp [renderStep, outParts, clueParts, h1, h2]

theorem foldl_renderStep (B : Finset ℕ) (l : List (ℕ × Token)) :
    ∀ acc, l.foldl (renderStep B) acc =
      (acc.1 ++ (l.map (outParts B)).flatten,
       acc.2 ++ (l.map (clueParts B)).flatten) := by
  induction l with
  | nil => intro acc; simp
  | cons p l ih =>
    intro acc
    rw [List.foldl_cons, ih, renderStep_eq]
    simp [List.append_assoc]

theorem render_parts (doc : List Token) (B : Finset ℕ) :
    render doc B =
      (pyStrip (joinAll (doc.enum.map (fun p => joinAll (outParts B p)))),
       pyStrip (joinAll (doc.enum.map (fun p => joinAll (clueParts B p))))) := by
  simp only [render, foldl_renderStep, List.nil_append, joinAll_flatten,
    List.map_map]
  rfl

theorem joinAll_outParts (B : Finset ℕ) (p : ℕ × Token) :
    joinAll (outParts B p) = specBlankedContrib B p := by
  by_cases h1 : p.1 ∈ B <;> by_cases h2 : p.2.whitespace_ = "" <;>
    simp [outParts, specBlankedContrib, joinAll, h1, h2, String.append_empty]

theorem joinAll_clueParts (B : Finset ℕ) (p : ℕ × Token) :
    joinAll (clueParts B p) = specClueContrib B p := by
  by_cases h1 : p.1 ∈ B <;> by_cases h2 : p.2.whitespace_ = "" <;>
    simp [clueParts, specClueContrib, joinAll, h1, h2, String.append_empty]

theorem enum_map_snd_comp {α β : Type} (l : List α) (f : α → β) :
    l.enum.map (fun p => f p.2) = l.map f := by
  rw [show (fun p : ℕ × α => f p.2) = f ∘ Prod.snd from rfl, ← List.map_map,
    List.enum_map_snd]

/-- C1: for every token sequence (with the tokenizer's nonempty-text
invariant) and every blank set, the renderer walks the full sequence in
order; a blank-set token contributes its first character followed by
`length - 1` underscores to the blanked text and just its first character
to the clue text; any other token contributes its original text to both;
each token's trailing whitespace is appended to both; finally both
accumulated strings are stripped of leading and trailing whitespace. -/
theorem C1_render_walk (doc : List Token) (B : Finset ℕ)
    (_h : ∀ t ∈ doc, t.text ≠ "") :
    render doc B =
      (pyStrip (joinAll (doc.enum.map (specBlankedContrib B))),
       pyStrip (joinAll (doc.enum.map (specClueContrib B)))) := by
  rw [render_parts]
  simp only [joinAll_outParts, joinAll_clueParts]

/-- Witness for C1 at the spec's scenario document with blank set `{1}`. -/
theorem C1_render_walk_witness :
    (∀ t ∈ docFox, t.text ≠ "") ∧
      render docFox {1} =
        (pyStrip (joinAll (docFox.enum.map (specBlankedContrib {1}))),
         pyStrip (joinAll (docFox.enum.map (specClueContrib {1})))) :=
  ⟨by decide, C1_render_walk docFox {1} (by decide)⟩

/-- C2 counterexample: Python's `re.match(r"^[A-Za-z]+$", s)` also accepts
letters followed by one trailing newline, so the token with text
`"abc\n"` (four characters, not a stop word) is eligible although its
text does not consist purely of ASCII letters. -/
theorem C2_eligibility_counterexample :
    eligible_token ⟨"abc\n", "", false, "", ""⟩ = true ∧
      isPureAlphabetic (Token.mk "abc\n" "" false "" "").text = false := by
  exact ⟨by decide, by decide⟩

/-- C2 amended: a token is eligible iff its text is one or more ASCII
letters optionally followed by a single trailing newline (the Python
semantics of `re.match(r"^[A-Za-z]+$", ...)`, where `$` also matches just
before a trailing newline), it is not a stop word, and its text length
(trailing newline included) is at least 4; eligibility is a pure function
of the token's fields. -/
theorem C2_eligibility_amended (t : Token) :
    eligible_token t = true ↔
      ((isPureAlphabetic t.text = true ∨
          (t.text.data.getLast? = some '\n' ∧
            isPureAlphabetic (String.mk t.text.data.dropLast) = true)) ∧
        t.is_stop = false ∧ 4 ≤ t.text.length) := by
  simp only [eligible_token, is_word, isPureAlphabetic, Bool.and_eq_true,
    Bool.or_eq_true, Bool.not_eq_true', decide_eq_true_eq, beq_iff_eq]
  tauto

/-- C4: when the tokenization is faithful (token texts concatenated with
their trailing whitespace reproduce the input text) and the blank set is
empty, the rendered blanked text is the original input stripped of leading
and trailing whitespace. -/
theorem C4_reconstruction (doc : List Token) (text : String)
    (h : joinAll (doc.map (fun t => t.text ++ t.whitespace_)) = text) :
    (render doc ∅).1 = pyStrip text := by
  rw [← h, render_parts]
  have hpt : ∀ p : ℕ × Token,
      joinAll (outParts ∅ p) = p.2.text ++ p.2.whitespace_ := by
    intro p
    by_cases h2 : p.2.whitespace_ = "" <;>
      simp [outParts, joinAll, h2, String.append_empty]
  simp only [hpt]
  exact congrArg pyStrip
    (congrArg joinAll (enum_map_snd_comp doc (fun t => t.text ++ t.whitespace_)))

/-- Witness for C4 at the spec's scenario document. -/
theorem C4_reconstruction_witness :
    joinAll (docFox.map (fun t => t.text ++ t.whitespace_)) =
        "The quick brown fox jumps" ∧
      (render docFox ∅).1 = pyStrip "The quick brown fox jumps" :=
  ⟨by decide, C4_reconstruction docFox "The quick brown fox jumps" (by decide)⟩

/-- C7 counterexample: on the spec's scenario the service returns
`"The q____ brown fox j____"` — the non-candidate token "fox" is emitted
verbatim — which differs from the claimed `"The q____ brown j____"`. -/
theorem C7_scenario_counterexample :
    generate nlpFox sampleTake 0 reqFox =
        Except.ok (GenResponse.ok "The q____ brown fox j____"
          "The q brown fox j") ∧
      "The q____ brown fox j____" ≠ "The q____ brown j____" := by
  exact ⟨by rfl, by decide⟩

/-- C7 amended: for the input text "The quick brown fox jumps" with
variation type `EVERY_OTHER_WORD` (candidates "quick", "brown", "jumps";
the candidates at even indices 0 and 2 are blanked), the returned
blanked text equals "The q____ brown fox j____". -/
theorem C7_scenario_amended :
    generate nlpFox sampleTake 0 reqFox =
      Except.ok (GenResponse.ok "The q____ brown fox j____"
        "The q brown fox j") := by
  rfl

theorem nodup_candidates (doc : List Token) : (candidates doc).Nodup :=
  (List.nodup_enum_map_fst doc).sublist
    ((List.filter_sublist doc.enum).map Prod.fst)

theorem mem_candidates (doc : List Token) (i : ℕ) :
    i ∈ candidates doc ↔ ∃ t, doc[i]? = some t ∧ eligible_token t = true := by
  simp only [candidates, List.mem_map, List.mem_filter,
    List.mem_enum_iff_getElem?]
  constructor
  · rintro ⟨⟨a, b⟩, ⟨hmem, helig⟩, rfl⟩
    exact ⟨b, hmem, helig⟩
  · rintro ⟨t, hget, helig⟩
    exact ⟨⟨i, t⟩, ⟨hget, helig⟩, rfl⟩

theorem mem_everyOther {α : Type} :
    ∀ (l : List α) (x : α), x ∈ everyOther l → x ∈ l
  | [], _, h => by simp [everyOther] at h
  | [a], x, h => by simpa [everyOther] using h
  | a :: b :: rest, x, h => by
    simp only [everyOther] at h
    rcases List.mem_cons.mp h with h1 | h2
    · exact h1 ▸ List.mem_cons_self a (b :: rest)
    · exact List.mem_cons_of_mem a
        (List.mem_cons_of_mem b (mem_everyOther rest x h2))

theorem sample_toFinset_facts {sample : ℕ → List ℕ → ℕ → List ℕ}
    (hs : SampleSpec sample) (g : ℕ) (doc : List Token) (k : ℕ) :
    (sample g (candidates doc) (min k (candidates doc).length)).toFinset ⊆
        (candidates doc).toFinset ∧
      (sample g (candidates doc)
          (min k (candidates doc).length)).toFinset.card =
        min k (candidates doc).length := by
  obtain ⟨hlen, hnd, hmem⟩ := hs g (candidates doc)
    (min k (candidates doc).length) (Nat.min_le_right _ _)
    (nodup_candidates doc)
  constructor
  · intro x hx
    rw [List.mem_toFinset] at hx ⊢
    exact hmem x hx
  · rw [List.toFinset_card_of_nodup hnd, hlen]


theorem selectBlankSet_all (sample : ℕ → List ℕ → ℕ → List ℕ) (g : ℕ)
    (br : Option PyVal) (bR st mbr : ℚ) (aN dl : ℤ) (doc : List Token) :
    selectBlankSet sample g "ALL_BLANK_FIRST_LETTERS" br bR st mbr aN dl doc =
      .ok (some (candidates doc).toFinset) := rfl

theorem selectBlankSet_random_none (sample : ℕ → List ℕ → ℕ → List ℕ)
    (g : ℕ) (bR st mbr : ℚ) (aN dl : ℤ) (doc : List Token) :
    selectBlankSet sample g "RANDOM_BLANKS" none bR st mbr aN dl doc =
      if (candidates doc).isEmpty then .ok (some ∅)
      else .ok (some (sample g (candidates doc)
        (min ((max 1 ⌊((candidates doc).length : ℚ) *
          (max 0 (min 1 (0.40 : ℚ)))⌋).toNat)
          (candidates doc).length)).toFinset) := rfl

theorem selectBlankSet_random_num (sample : ℕ → List ℕ → ℕ → List ℕ)
    (g : ℕ) (q : ℚ) (bR st mbr : ℚ) (aN dl : ℤ) (doc : List Token) :
    selectBlankSet sample g "RANDOM_BLANKS" (some (.num q)) bR st mbr aN dl
        doc =
      if (candidates doc).isEmpty then .ok (some ∅)
      else .ok (some (sample g (candidates doc)
        (min ((max 1 ⌊((candidates doc).length : ℚ) *
          (max 0 (min 1 q))⌋).toNat)
          (candidates doc).length)).toFinset) := rfl

theorem selectBlankSet_random_bad (sample : ℕ → List ℕ → ℕ → List ℕ)
    (g : ℕ) (s : String) (bR st mbr : ℚ) (aN dl : ℤ) (doc : List Token) :
    selectBlankSet sample g "RANDOM_BLANKS" (some (.nonNumeric s)) bR st mbr
        aN dl doc =
      .error ("could not convert to float: " ++ s) := rfl

theorem selectBlankSet_key (sample : ℕ → List ℕ → ℕ → List ℕ) (g : ℕ)
    (br : Option PyVal) (bR st mbr : ℚ) (aN dl : ℤ) (doc : List Token) :
    selectBlankSet sample g "KEY_TERMS_ONLY" br bR st mbr aN dl doc =
      .ok (some ((doc.enum.filter (fun p => eligible_token p.2 &&
        (p.2.pos_ == "NOUN" || p.2.pos_ == "PROPN" ||
          p.2.ent_type_ != ""))).map Prod.fst).toFinset) := rfl

theorem selectBlankSet_every (sample : ℕ → List ℕ → ℕ → List ℕ) (g : ℕ)
    (br : Option PyVal) (bR st mbr : ℚ) (aN dl : ℤ) (doc : List Token) :
    selectBlankSet sample g "EVERY_OTHER_WORD" br bR st mbr aN dl doc =
      .ok (some (everyOther (candidates doc)).toFinset) := rfl

theorem selectBlankSet_incr_none (sample : ℕ → List ℕ → ℕ → List ℕ)
    (g : ℕ) (bR st mbr : ℚ) (aN dl : ℤ) (doc : List Token) :
    selectBlankSet sample g "INCREASING_DIFFICULTY" none bR st mbr aN dl
        doc =
      if (candidates doc).isEmpty then .ok (some ∅)
      else if 1 ≤ max 0 (min mbr (bR + st * ((aN : ℚ) - 1))) then
        .ok (some (candidates doc).toFinset)
      else .ok (some (sample g (candidates doc)
        (min ((max 1 ⌊((candidates doc).length : ℚ) *
          (max 0 (min mbr (bR + st * ((aN : ℚ) - 1))))⌋).toNat)
          (candidates doc).length)).toFinset) := rfl

theorem selectBlankSet_incr_num (sample : ℕ → List ℕ → ℕ → List ℕ)
    (g : ℕ) (q : ℚ) (bR st mbr : ℚ) (aN dl : ℤ) (doc : List Token) :
    selectBlankSet sample g "INCREASING_DIFFICULTY" (some (.num q)) bR st
        mbr aN dl doc =
      if (candidates doc).isEmpty then .ok (some ∅)
      else if 1 ≤ max 0 (min mbr q) then
        .ok (some (candidates doc).toFinset)
      else .ok (some (sample g (candidates doc)
        (min ((max 1 ⌊((candidates doc).length : ℚ) *
          (max 0 (min mbr q))⌋).toNat)
          (candidates doc).length)).toFinset) := rfl

theorem selectBlankSet_incr_bad (sample : ℕ → List ℕ → ℕ → List ℕ)
    (g : ℕ) (s : String) (bR st mbr : ℚ) (aN dl : ℤ) (doc : List Token) :
    selectBlankSet sample g "INCREASING_DIFFICULTY" (some (.nonNumeric s))
        bR st mbr aN dl doc =
      .error ("could not convert to float: " ++ s) := rfl

theorem selectBlankSet_diff (sample : ℕ → List ℕ → ℕ → List ℕ) (g : ℕ)
    (br : Option PyVal) (bR st mbr : ℚ) (aN dl : ℤ) (doc : List Token) :
    selectBlankSet sample g "DIFFICULTY_LEVEL_BLANKS" br bR st mbr aN dl
        doc =
      if (candidates doc).isEmpty then .ok (some ∅)
      else if 1 ≤ level_to_ratio dl then
        .ok (some (candidates doc).toFinset)
      else .ok (some (sample g (candidates doc)
        (min ((max 1 ⌊((candidates doc).length : ℚ) *
          level_to_ratio dl⌋).toNat)
          (candidates doc).length)).toFinset) := rfl

theorem selectBlankSet_unknown (sample : ℕ → List ℕ → ℕ → List ℕ) (g : ℕ)
    (vt : String) (br : Option PyVal) (bR st mbr : ℚ) (aN dl : ℤ)
    (doc : List Token) (hvt : vt ∉ variationTypes) :
    selectBlankSet sample g vt br bR st mbr aN dl doc = .ok none := by
  simp only [variationTypes, List.mem_cons, List.mem_singleton, not_or] at hvt
  obtain ⟨n1, n2, n3, n4, n5, n6, -⟩ := hvt
  simp only [selectBlankSet, if_neg n1, if_neg n2, if_neg n3, if_neg n4,
    if_neg n5, if_neg n6]

theorem ok_some_inj {B C : Finset ℕ}
    (h : (Except.ok (some C) : Except String (Option (Finset ℕ))) =
      .ok (some B)) : C = B := by
  injection h with h1
  injection h1

/-- C3: for every request and each of the six variation types, a
successfully selected blank set is a subset of the candidate set, its size
never exceeds the number of candidates, and every selected position holds
an eligible token (so `KEY_TERMS_ONLY`, which scans the full token
sequence, still only selects eligible tokens). -/
theorem C3_blank_subset (sample : ℕ → List ℕ → ℕ → List ℕ)
    (hs : SampleSpec sample) (g : ℕ) (vt : String) (br : Option PyVal)
    (bR st mbr : ℚ) (aN dl : ℤ) (doc : List Token) (B : Finset ℕ)
    (hB : selectBlankSet sample g vt br bR st mbr aN dl doc =
      .ok (some B)) :
    B ⊆ (candidates doc).toFinset ∧ B.card ≤ (candidates doc).length ∧
      ∀ i ∈ B, ∃ t, doc[i]? = some t ∧ eligible_token t = true := by
  have hsub : B ⊆ (candidates doc).toFinset := by
    by_cases h1 : vt = "ALL_BLANK_FIRST_LETTERS"
    · subst h1
      rw [selectBlankSet_all] at hB
      rw [← ok_some_inj hB]
    · by_cases h2 : vt = "RANDOM_BLANKS"
      · subst h2
        rcases br with _ | v
        · rw [selectBlankSet_random_none] at hB
          by_cases hc : (candidates doc).isEmpty = true
          · rw [if_pos hc] at hB
            rw [← ok_some_inj hB]
            exact Finset.empty_subset _
          · rw [if_neg hc] at hB
            rw [← ok_some_inj hB]
            exact (sample_toFinset_facts hs g doc _).1
        · rcases v with q | s
          · rw [selectBlankSet_random_num] at hB
            by_cases hc : (candidates doc).isEmpty = true
            · rw [if_pos hc] at hB
              rw [← ok_some_inj hB]
              exact Finset.empty_subset _
            · rw [if_neg hc] at hB
              rw [← ok_some_inj hB]
              exact (sample_toFinset_facts hs g doc _).1
          · rw [selectBlankSet_random_bad] at hB
            exact absurd hB (by simp)
      · by_cases h3 : vt = "KEY_TERMS_ONLY"
        · subst h3
          rw [selectBlankSet_key] at hB
          rw [← ok_some_inj hB]
          intro x hx
          rw [List.mem_toFinset] at hx ⊢
          rcases List.mem_map.mp hx with ⟨p, hp, rfl⟩
          rcases List.mem_filter.mp hp with ⟨hpe, hpq⟩
          rcases (Bool.and_eq_true _ _).mp hpq with ⟨helig, -⟩
          exact List.mem_map.mpr ⟨p, List.mem_filter.mpr ⟨hpe, helig⟩, rfl⟩
        · by_cases h4 : vt = "EVERY_OTHER_WORD"
          · subst h4
            rw [selectBlankSet_every] at hB
            rw [← ok_some_inj hB]
            intro x hx
            rw [List.mem_toFinset] at hx ⊢
            exact mem_everyOther _ x hx
          · by_cases h5 : vt = "INCREASING_DIFFICULTY"
            · subst h5
              rcases br with _ | v
              · rw [selectBlankSet_incr_none] at hB
                by_cases hc : (candidates doc).isEmpty = true
                · rw [if_pos hc] at hB
                  rw [← ok_some_inj hB]
                  exact Finset.empty_subset _
                · rw [if_neg hc] at hB
                  by_cases hr :
                      1 ≤ max 0 (min mbr (bR + st * ((aN : ℚ) - 1)))
                  · rw [if_pos hr] at hB
                    rw [← ok_some_inj hB]
                  · rw [if_neg hr] at hB
                    rw [← ok_some_inj hB]
                    exact (sample_toFinset_facts hs g doc _).1
              · rcases v with q | s
                · rw [selectBlankSet_incr_num] at hB
                  by_cases hc : (candidates doc).isEmpty = true
                  · rw [if_pos hc] at hB
                    rw [← ok_some_inj hB]
                    exact Finset.empty_subset _
                  · rw [if_neg hc] at hB
                    by_cases hr : 1 ≤ max 0 (min mbr q)
                    · rw [if_pos hr] at hB
                      rw [← ok_some_inj hB]
                    · rw [if_neg hr] at hB
                      rw [← ok_some_inj hB]
                      exact (sample_toFinset_facts hs g doc _).1
                · rw [selectBlankSet_incr_bad] at hB
                  exact absurd hB (by simp)
            · by_cases h6 : vt = "DIFFICULTY_LEVEL_BLANKS"
              · subst h6
                rw [selectBlankSet_diff] at hB
                by_cases hc : (candidates doc).isEmpty = true
                · rw [if_pos hc] at hB
                  rw [← ok_some_inj hB]
                  exact Finset.empty_subset _
                · rw [if_neg hc] at hB
                  by_cases hr : 1 ≤ level_to_ratio dl
                  · rw [if_pos hr] at hB
                    rw [← ok_some_inj hB]
                  · rw [if_neg hr] at hB
                    rw [← ok_some_inj hB]
                    exact (sample_toFinset_facts hs g doc _).1
              · rw [selectBlankSet_unknown sample g vt br bR st mbr aN dl doc
                  (by simp [variationTypes, h1, h2, h3, h4, h5, h6])] at hB
                exact absurd hB (by simp)
  refine ⟨hsub, (Finset.card_le_card hsub).trans (List.toFinset_card_le _),
    ?_⟩
  intro i hi
  have hmem := hsub hi
  rw [List.mem_toFinset] at hmem
  exact (mem_candidates doc i).mp hmem

/-- Witness for C3: the `EVERY_OTHER_WORD` selection on the scenario
document selects positions 1 and 4. -/
theorem C3_blank_subset_witness :
    SampleSpec sampleTake ∧
      selectBlankSet sampleTake 0 "EVERY_OTHER_WORD" none 0.30 0.15 0.85 1 1
          docFox = .ok (some ({1, 4} : Finset ℕ)) ∧
      (({1, 4} : Finset ℕ) ⊆ (candidates docFox).toFinset ∧
        ({1, 4} : Finset ℕ).card ≤ (candidates docFox).length ∧
        ∀ i ∈ ({1, 4} : Finset ℕ),
          ∃ t, docFox[i]? = some t ∧ eligible_token t = true) :=
  ⟨sampleTake_spec, by decide,
    C3_blank_subset sampleTake sampleTake_spec 0 "EVERY_OTHER_WORD" none
      0.30 0.15 0.85 1 1 docFox {1, 4} (by decide)⟩

theorem not_isEmpty_of_one_le {l : List ℕ} (h : 1 ≤ l.length) :
    ¬(l.isEmpty = true) := by
  intro hc
  rw [List.isEmpty_iff] at hc
  subst hc
  simp at h

theorem toNat_max_one (f : ℤ) : (max 1 f).toNat = max 1 f.toNat := by
  omega

theorem one_le_sampleSize (f : ℤ) (n : ℕ) (hn : 1 ≤ n) :
    1 ≤ min (max 1 f).toNat n := by
  omega

/-- C5: for `RANDOM_BLANKS` — ratio `blank_ratio` (default 0.40) clamped to
`[0, 1]` — and for `DIFFICULTY_LEVEL_BLANKS` whenever the mapped ratio is
below 1, the blank set is empty when there are no candidates, and with
`n ≥ 1` candidates it holds exactly
`min (max 1 ⌊n * ratio⌋) n` distinct candidates drawn without replacement;
hence it is nonempty whenever candidates exist. -/
theorem C5_random_sample_size (sample : ℕ → List ℕ → ℕ → List ℕ)
    (hs : SampleSpec sample) (g : ℕ) (br : Option PyVal) (q : ℚ)
    (hbr : br = some (PyVal.num q) ∨ (br = none ∧ q = 0.40))
    (bR st mbr : ℚ) (aN dl : ℤ) (doc : List Token) :
    ((candidates doc).length = 0 →
      selectBlankSet sample g "RANDOM_BLANKS" br bR st mbr aN dl doc =
        .ok (some ∅)) ∧
    (1 ≤ (candidates doc).length →
      ∃ B, selectBlankSet sample g "RANDOM_BLANKS" br bR st mbr aN dl doc =
          .ok (some B) ∧
        B.card = min (max 1 (⌊((candidates doc).length : ℚ) *
            (max 0 (min 1 q))⌋).toNat) (candidates doc).length ∧
        B ⊆ (candidates doc).toFinset ∧ B.Nonempty) ∧
    (level_to_ratio dl < 1 →
      ((candidates doc).length = 0 →
        selectBlankSet sample g "DIFFICULTY_LEVEL_BLANKS" br bR st mbr aN dl
          doc = .ok (some ∅)) ∧
      (1 ≤ (candidates doc).length →
        ∃ B, selectBlankSet sample g "DIFFICULTY_LEVEL_BLANKS" br bR st mbr
            aN dl doc = .ok (some B) ∧
          B.card = min (max 1 (⌊((candidates doc).length : ℚ) *
              level_to_ratio dl⌋).toNat) (candidates doc).length ∧
          B ⊆ (candidates doc).toFinset ∧ B.Nonempty)) := by
  have heq : selectBlankSet sample g "RANDOM_BLANKS" br bR st mbr aN dl
      doc =
      if (candidates doc).isEmpty then .ok (some ∅)
      else .ok (some (sample g (candidates doc)
        (min ((max 1 ⌊((candidates doc).length : ℚ) *
          (max 0 (min 1 q))⌋).toNat)
          (candidates doc).length)).toFinset) := by
    rcases hbr with h | ⟨h, hq0⟩
    · subst h
      exact selectBlankSet_random_num sample g q bR st mbr aN dl doc
    · subst h
      subst hq0
      exact selectBlankSet_random_none sample g bR st mbr aN dl doc
  refine ⟨?_, ?_, ?_⟩
  · intro hn
    rw [heq, if_pos (List.isEmpty_iff.mpr (List.length_eq_zero.mp hn))]
  · intro hn
    rw [heq, if_neg (not_isEmpty_of_one_le hn)]
    refine ⟨_, rfl, ?_, (sample_toFinset_facts hs g doc _).1, ?_⟩
    · rw [(sample_toFinset_facts hs g doc _).2, toNat_max_one]
    · rw [← Finset.card_pos, (sample_toFinset_facts hs g doc _).2]
      exact one_le_sampleSize _ _ hn
  · intro hrlt
    constructor
    · intro hn
      rw [selectBlankSet_diff,
        if_pos (List.isEmpty_iff.mpr (List.length_eq_zero.mp hn))]
    · intro hn
      rw [selectBlankSet_diff, if_neg (not_isEmpty_of_one_le hn),
        if_neg (not_le.mpr hrlt)]
      refine ⟨_, rfl, ?_, (sample_toFinset_facts hs g doc _).1, ?_⟩
      · rw [(sample_toFinset_facts hs g doc _).2, toNat_max_one]
      · rw [← Finset.card_pos, (sample_toFinset_facts hs g doc _).2]
        exact one_le_sampleSize _ _ hn

/-- Witness for C5: `RANDOM_BLANKS` with default ratio on the scenario
document (3 candidates, sample size `min (max 1 ⌊3 · 0.4⌋) 3 = 1`). -/
theorem C5_random_sample_size_witness :
    SampleSpec sampleTake ∧
      ((none : Option PyVal) = some (PyVal.num 0.40) ∨
        ((none : Option PyVal) = none ∧ (0.40 : ℚ) = 0.40)) ∧
      (1 ≤ (candidates docFox).length) ∧
      (∃ B, selectBlankSet sampleTake 0 "RANDOM_BLANKS" none 0.30 0.15 0.85
          1 1 docFox = .ok (some B) ∧
        B.card = min (max 1 (⌊((candidates docFox).length : ℚ) *
            (max 0 (min 1 (0.40 : ℚ)))⌋).toNat) (candidates docFox).length ∧
        B ⊆ (candidates docFox).toFinset ∧ B.Nonempty) :=
  ⟨sampleTake_spec, Or.inr ⟨rfl, rfl⟩, by decide,
    (C5_random_sample_size sampleTake sampleTake_spec 0 none 0.40
      (Or.inr ⟨rfl, rfl⟩) 0.30 0.15 0.85 1 1 docFox).2.1 (by decide)⟩

/-- C6: for `INCREASING_DIFFICULTY` the effective ratio is `blank_ratio`
when present, otherwise `base_blank_ratio + step * (attempt_number - 1)`
(with request defaults `attempt_number = 1`, `base_blank_ratio = 0.30`,
`step = 0.15`, `max_blank_ratio = 0.85`), clamped to
`[0, max_blank_ratio]`; a clamped ratio of at least 1 blanks every
candidate, otherwise the blank set is a size
`min (max 1 ⌊n * ratio⌋) n` sample of the `n` candidates, or empty when
there are no candidates. -/
theorem C6_increasing_difficulty (sample : ℕ → List ℕ → ℕ → List ℕ)
    (hs : SampleSpec sample) (g : ℕ) (br : Option PyVal)
    (bR st mbr : ℚ) (aN dl : ℤ) (doc : List Token) (q : ℚ)
    (hbr : br = some (PyVal.num q) ∨
      (br = none ∧ q = bR + st * ((aN : ℚ) - 1))) :
    (∀ req : GenRequest, req.attempt_number = none →
      req.base_blank_ratio = none → req.step = none →
      req.max_blank_ratio = none → req.difficulty_level = none →
      resolveParams req = .ok ⟨req.text,
        req.variation_type.getD "ALL_BLANK_FIRST_LETTERS", req.blank_ratio,
        req.seed, 1, 0.30, 0.15, 0.85, 1⟩) ∧
    ((candidates doc).length = 0 →
      selectBlankSet sample g "INCREASING_DIFFICULTY" br bR st mbr aN dl
        doc = .ok (some ∅)) ∧
    (1 ≤ (candidates doc).length → 1 ≤ max 0 (min mbr q) →
      selectBlankSet sample g "INCREASING_DIFFICULTY" br bR st mbr aN dl
        doc = .ok (some (candidates doc).toFinset)) ∧
    (1 ≤ (candidates doc).length → max 0 (min mbr q) < 1 →
      ∃ B, selectBlankSet sample g "INCREASING_DIFFICULTY" br bR st mbr aN
          dl doc = .ok (some B) ∧
        B.card = min (max 1 (⌊((candidates doc).length : ℚ) *
            (max 0 (min mbr q))⌋).toNat) (candidates doc).length ∧
        B ⊆ (candidates doc).toFinset ∧ B.Nonempty) := by
  have heq : selectBlankSet sample g "INCREASING_DIFFICULTY" br bR st mbr
      aN dl doc =
      if (candidates doc).isEmpty then .ok (some ∅)
      else if 1 ≤ max 0 (min mbr q) then
        .ok (some (candidates doc).toFinset)
      else .ok (some (sample g (candidates doc)
        (min ((max 1 ⌊((candidates doc).length : ℚ) *
          (max 0 (min mbr q))⌋).toNat)
          (candidates doc).length)).toFinset) := by
    rcases hbr with h | ⟨h, hq0⟩
    · subst h
      exact selectBlankSet_incr_num sample g q bR st mbr aN dl doc
    · subst h
      subst hq0
      exact selectBlankSet_incr_none sample g bR st mbr aN dl doc
  refine ⟨?_, ?_, ?_, ?_⟩
  · intro req h1 h2 h3 h4 h5
    simp only [resolveParams, h1, h2, h3, h4, h5, Option.getD_none, pyInt,
      pyFloat]
    norm_num
  · intro hn
    rw [heq, if_pos (List.isEmpty_iff.mpr (List.length_eq_zero.mp hn))]
  · intro hn hr
    rw [heq, if_neg (not_isEmpty_of_one_le hn), if_pos hr]
  · intro hn hr
    rw [heq, if_neg (not_isEmpty_of_one_le hn), if_neg (not_le.mpr hr)]
    refine ⟨_, rfl, ?_, (sample_toFinset_facts hs g doc _).1, ?_⟩
    · rw [(sample_toFinset_facts hs g doc _).2, toNat_max_one]
    · rw [← Finset.card_pos, (sample_toFinset_facts hs g doc _).2]
      exact one_le_sampleSize _ _ hn

/-- Witness for C6: first attempt with all defaults on the scenario
document — effective ratio `0.30 + 0.15 · (1 − 1) = 0.30`, sample size
`min (max 1 ⌊3 · 0.3⌋) 3 = 1`. -/
theorem C6_increasing_difficulty_witness :
    SampleSpec sampleTake ∧
      ((none : Option PyVal) =
          some (PyVal.num (0.30 + 0.15 * (((1 : ℤ) : ℚ) - 1))) ∨
        ((none : Option PyVal) = none ∧
          (0.30 + 0.15 * (((1 : ℤ) : ℚ) - 1) : ℚ) =
            0.30 + 0.15 * (((1 : ℤ) : ℚ) - 1))) ∧
      (1 ≤ (candidates docFox).length) ∧
      (max 0 (min (0.85 : ℚ) (0.30 + 0.15 * (((1 : ℤ) : ℚ) - 1))) < 1) ∧
      (∃ B, selectBlankSet sampleTake 0 "INCREASING_DIFFICULTY" none 0.30
          0.15 0.85 1 1 docFox = .ok (some B) ∧
        B.card = min (max 1 (⌊((candidates docFox).length : ℚ) *
            (max 0 (min (0.85 : ℚ)
              (0.30 + 0.15 * (((1 : ℤ) : ℚ) - 1))))⌋).toNat)
          (candidates docFox).length ∧
        B ⊆ (candidates docFox).toFinset ∧ B.Nonempty) :=
  ⟨sampleTake_spec, Or.inr ⟨rfl, rfl⟩, by decide, by norm_num,
    (C6_increasing_difficulty sampleTake sampleTake_spec 0 none 0.30 0.15
      0.85 1 1 docFox (0.30 + 0.15 * (((1 : ℤ) : ℚ) - 1))
      (Or.inr ⟨rfl, rfl⟩)).2.2.2 (by decide) (by norm_num)⟩

theorem resolveParams_fields (req : GenRequest) (p : Params)
    (h : resolveParams req = .ok p) :
    p.text = req.text ∧
      p.variation_type =
        req.variation_type.getD "ALL_BLANK_FIRST_LETTERS" ∧
      p.blank_ratio = req.blank_ratio ∧ p.seed = req.seed := by
  unfold resolveParams at h
  repeat first
  | exact Except.noConfusion h
  | split at h
  injection h with h'
  rw [← h']
  exact ⟨rfl, rfl, rfl, rfl⟩

theorem selectBlankSet_isOk (sample : ℕ → List ℕ → ℕ → List ℕ) (g : ℕ)
    (vt : String) (br : Option PyVal) (bR st mbr : ℚ) (aN dl : ℤ)
    (doc : List Token) (hvt : vt ∈ variationTypes)
    (hbr : br = none ∨ ∃ q, br = some (PyVal.num q)) :
    ∃ B, selectBlankSet sample g vt br bR st mbr aN dl doc =
      .ok (some B) := by
  simp only [variationTypes, List.mem_cons, List.mem_singleton,
    List.not_mem_nil, or_false] at hvt
  rcases hvt with rfl | rfl | rfl | rfl | rfl | rfl
  · exact ⟨_, selectBlankSet_all sample g br bR st mbr aN dl doc⟩
  · have heq : ∃ q : ℚ,
        selectBlankSet sample g "RANDOM_BLANKS" br bR st mbr aN dl doc =
        if (candidates doc).isEmpty then .ok (some ∅)
        else .ok (some (sample g (candidates doc)
          (min ((max 1 ⌊((candidates doc).length : ℚ) *
            (max 0 (min 1 q))⌋).toNat)
            (candidates doc).length)).toFinset) := by
      rcases hbr with rfl | ⟨q, rfl⟩
      · exact ⟨0.40, selectBlankSet_random_none sample g bR st mbr aN dl doc⟩
      · exact ⟨q, selectBlankSet_random_num sample g q bR st mbr aN dl doc⟩
    obtain ⟨q, hq⟩ := heq
    rw [hq]
    by_cases hc : (candidates doc).isEmpty = true
    · rw [if_pos hc]; exact ⟨_, rfl⟩
    · rw [if_neg hc]; exact ⟨_, rfl⟩
  · exact ⟨_, selectBlankSet_key sample g br bR st mbr aN dl doc⟩
  · exact ⟨_, selectBlankSet_every sample g br bR st mbr aN dl doc⟩
  · have heq : ∃ q : ℚ,
        selectBlankSet sample g "INCREASING_DIFFICULTY" br bR st mbr aN dl
          doc =
        if (candidates doc).isEmpty then .ok (some ∅)
        else if 1 ≤ max 0 (min mbr q) then
          .ok (some (candidates doc).toFinset)
        else .ok (some (sample g (candidates doc)
          (min ((max 1 ⌊((candidates doc).length : ℚ) *
            (max 0 (min mbr q))⌋).toNat)
            (candidates doc).length)).toFinset) := by
      rcases hbr with rfl | ⟨q, rfl⟩
      · exact ⟨_, selectBlankSet_incr_none sample g bR st mbr aN dl doc⟩
      · exact ⟨q, selectBlankSet_incr_num sample g q bR st mbr aN dl doc⟩
    obtain ⟨q, hq⟩ := heq
    rw [hq]
    by_cases hc : (candidates doc).isEmpty = true
    · rw [if_pos hc]; exact ⟨_, rfl⟩
    · rw [if_neg hc]
      by_cases hr : 1 ≤ max 0 (min mbr q)
      · rw [if_pos hr]; exact ⟨_, rfl⟩
      · rw [if_neg hr]; exact ⟨_, rfl⟩
  · rw [selectBlankSet_diff]
    by_cases hc : (candidates doc).isEmpty = true
    · rw [if_pos hc]; exact ⟨_, rfl⟩
    · rw [if_neg hc]
      by_cases hr : 1 ≤ level_to_ratio dl
      · rw [if_pos hr]; exact ⟨_, rfl⟩
      · rw [if_neg hr]; exact ⟨_, rfl⟩

theorem generate_ok (tokenize : String → List Token)
    (sample : ℕ → List ℕ → ℕ → List ℕ) (g0 : ℕ) (req : GenRequest)
    (p : Params) (hp : resolveParams req = .ok p) :
    generate tokenize sample g0 req =
      if pyStrip p.text = "" then .ok (.httpError 400 "text is required")
      else
        match selectBlankSet sample
            (match p.seed with
             | some s => s
             | none => g0)
            p.variation_type p.blank_ratio p.base_blank_ratio p.step
            p.max_blank_ratio p.attempt_number p.difficulty_level
            (tokenize p.text) with
        | .error e => .error e
        | .ok none =>
          .ok (.httpError 400
            ("Unknown variation_type: " ++ p.variation_type))
        | .ok (some B) =>
          .ok (.ok (render (tokenize p.text) B).1
            (render (tokenize p.text) B).2) := by
  unfold generate
  rw [hp]

theorem generate_error (tokenize : String → List Token)
    (sample : ℕ → List ℕ → ℕ → List ℕ) (g0 : ℕ) (req : GenRequest)
    (e : String) (hp : resolveParams req = .error e) :
    generate tokenize sample g0 req = .error e := by
  unfold generate
  rw [hp]

/-- C8: for every request whose numeric parameters convert, the handler
returns 400 `"text is required"` exactly when the trimmed text is empty;
with nonempty text and an unrecognized variation type it returns 400
`"Unknown variation_type: <value>"` carrying the offending value; and
otherwise it returns the success payload with both `blanked_text` and
`first_letter_clues`.  No other user-facing outcome exists and no partial
result is produced. -/
theorem C8_error_taxonomy (tokenize : String → List Token)
    (sample : ℕ → List ℕ → ℕ → List ℕ) (g0 : ℕ) (req : GenRequest)
    (p : Params) (hp : resolveParams req = .ok p)
    (hbr : p.blank_ratio = none ∨ ∃ q, p.blank_ratio = some (PyVal.num q)) :
    (pyStrip req.text = "" →
      generate tokenize sample g0 req =
        .ok (.httpError 400 "text is required")) ∧
    (pyStrip req.text ≠ "" → p.variation_type ∉ variationTypes →
      generate tokenize sample g0 req =
        .ok (.httpError 400
          ("Unknown variation_type: " ++ p.variation_type))) ∧
    (pyStrip req.text ≠ "" → p.variation_type ∈ variationTypes →
      ∃ b c, generate tokenize sample g0 req = .ok (.ok b c)) := by
  obtain ⟨hpt, hpv, hpb, hps⟩ := resolveParams_fields req p hp
  rw [generate_ok tokenize sample g0 req p hp, hpt]
  refine ⟨?_, ?_, ?_⟩
  · intro hempty
    rw [if_pos hempty]
  · intro hne hvt
    rw [if_neg hne,
      selectBlankSet_unknown sample _ p.variation_type p.blank_ratio
        p.base_blank_ratio p.step p.max_blank_ratio p.attempt_number
        p.difficulty_level (tokenize req.text) hvt]
  · intro hne hvt
    obtain ⟨B, hB⟩ := selectBlankSet_isOk sample
      (match p.seed with
       | some s => s
       | none => g0)
      p.variation_type p.blank_ratio p.base_blank_ratio p.step
      p.max_blank_ratio p.attempt_number p.difficulty_level
      (tokenize req.text) hvt hbr
    refine ⟨(render (tokenize req.text) B).1,
      (render (tokenize req.text) B).2, ?_⟩
    rw [if_neg hne, hB]

/-- Witness for C8: the scenario request (nonempty text, known variation
type) yields a success payload. -/
theorem C8_error_taxonomy_witness :
    resolveParams reqFox = .ok ⟨"The quick brown fox jumps",
        "EVERY_OTHER_WORD", none, none, 1, 0.30, 0.15, 0.85, 1⟩ ∧
      ((none : Option PyVal) = none ∨
        ∃ q, (none : Option PyVal) = some (PyVal.num q)) ∧
      pyStrip "The quick brown fox jumps" ≠ "" ∧
      ("EVERY_OTHER_WORD" : String) ∈ variationTypes ∧
      ∃ b c, generate nlpFox sampleTake 0 reqFox = .ok (.ok b c) := by
  have hp : resolveParams reqFox = .ok ⟨"The quick brown fox jumps",
      "EVERY_OTHER_WORD", none, none, 1, 0.30, 0.15, 0.85, 1⟩ := by rfl
  exact ⟨hp, Or.inl rfl, by decide, by decide,
    (C8_error_taxonomy nlpFox sampleTake 0 reqFox _ hp (Or.inl rfl)).2.2
      (by decide) (by decide)⟩

/-- C9: responses are reproducible — the handler's output does not depend
on the incoming global random-generator state whenever the variation type
is one of the non-random ones, or an explicit seed is supplied (the
generator is reseeded from the seed before any sampling). -/
theorem C9_determinism (tokenize : String → List Token)
    (sample : ℕ → List ℕ → ℕ → List ℕ) (req : GenRequest) (g0 g0' : ℕ)
    (h : req.variation_type.getD "ALL_BLANK_FIRST_LETTERS" ∈
        nonRandomTypes ∨ req.seed.isSome = true) :
    generate tokenize sample g0 req = generate tokenize sample g0' req := by
  cases hres : resolveParams req with
  | error e =>
    rw [generate_error tokenize sample g0 req e hres,
      generate_error tokenize sample g0' req e hres]
  | ok p =>
    obtain ⟨hpt, hpv, hpb, hps⟩ := resolveParams_fields req p hres
    rw [generate_ok tokenize sample g0 req p hres,
      generate_ok tokenize sample g0' req p hres]
    by_cases hempty : pyStrip p.text = ""
    · simp only [if_pos hempty]
    · simp only [if_neg hempty]
      rcases h with hnr | hseed
      · rw [← hpv] at hnr
        simp only [nonRandomTypes, List.mem_cons, List.mem_singleton,
          List.not_mem_nil, or_false] at hnr
        rcases hnr with hv | hv | hv <;> rw [hv]
        · rw [selectBlankSet_all, selectBlankSet_all]
        · rw [selectBlankSet_key, selectBlankSet_key]
        · rw [selectBlankSet_every, selectBlankSet_every]
      · obtain ⟨s, hs'⟩ := Option.isSome_iff_exists.mp hseed
        rw [hps, hs']

/-- Witness for C9: the scenario request (non-random variation type) gives
the same response for two different incoming generator states. -/
theorem C9_determinism_witness :
    (reqFox.variation_type.getD "ALL_BLANK_FIRST_LETTERS" ∈
        nonRandomTypes ∨ reqFox.seed.isSome = true) ∧
      generate nlpFox sampleTake 0 reqFox =
        generate nlpFox sampleTake 1 reqFox :=
  ⟨Or.inl (by decide),
    C9_determinism nlpFox sampleTake reqFox 0 1 (Or.inl (by decide))⟩

theorem resolveParams_error_of_bad (req : GenRequest)
    (hbad : (∃ s, req.attempt_number = some (PyVal.nonNumeric s)) ∨
      (∃ s, req.base_blank_ratio = some (PyVal.nonNumeric s)) ∨
      (∃ s, req.step = some (PyVal.nonNumeric s)) ∨
      (∃ s, req.max_blank_ratio = some (PyVal.nonNumeric s)) ∨
      (∃ s, req.difficulty_level = some (PyVal.nonNumeric s))) :
    ∃ e, resolveParams req = .error e := by
  unfold resolveParams
  rcases hbad with ⟨s, h⟩ | ⟨s, h⟩ | ⟨s, h⟩ | ⟨s, h⟩ | ⟨s, h⟩
  · rw [h]
    exact ⟨_, rfl⟩
  · rw [h]
    cases h1 : pyInt (req.attempt_number.getD (PyVal.num 1)) with
    | error e1 => exact ⟨e1, rfl⟩
    | ok a1 => exact ⟨_, rfl⟩
  · rw [h]
    cases h1 : pyInt (req.attempt_number.getD (PyVal.num 1)) with
    | error e1 => exact ⟨e1, rfl⟩
    | ok a1 =>
      cases h2 : pyFloat (req.base_blank_ratio.getD (PyVal.num 0.30)) with
      | error e2 => exact ⟨e2, rfl⟩
      | ok a2 => exact ⟨_, rfl⟩
  · rw [h]
    cases h1 : pyInt (req.attempt_number.getD (PyVal.num 1)) with
    | error e1 => exact ⟨e1, rfl⟩
    | ok a1 =>
      cases h2 : pyFloat (req.base_blank_ratio.getD (PyVal.num 0.30)) with
      | error e2 => exact ⟨e2, rfl⟩
      | ok a2 =>
        cases h3 : pyFloat (req.step.getD (PyVal.num 0.15)) with
        | error e3 => exact ⟨e3, rfl⟩
        | ok a3 => exact ⟨_, rfl⟩
  · rw [h]
    cases h1 : pyInt (req.attempt_number.getD (PyVal.num 1)) with
    | error e1 => exact ⟨e1, rfl⟩
    | ok a1 =>
      cases h2 : pyFloat (req.base_blank_ratio.getD (PyVal.num 0.30)) with
      | error e2 => exact ⟨e2, rfl⟩
      | ok a2 =>
        cases h3 : pyFloat (req.step.getD (PyVal.num 0.15)) with
        | error e3 => exact ⟨e3, rfl⟩
        | ok a3 =>
          cases h4 : pyFloat (req.max_blank_ratio.getD (PyVal.num 0.85)) with
          | error e4 => exact ⟨e4, rfl⟩
          | ok a4 => exact ⟨_, rfl⟩

/-- C10: the handler converts `attempt_number`, `base_blank_ratio`,
`step`, `max_blank_ratio` and `difficulty_level` before the empty-text
check, so a request with empty text and a non-numeric value in one of
those fields fails with a conversion error rather than returning the 400
response `"text is required"`. -/
theorem C10_conversion_before_check (tokenize : String → List Token)
    (sample : ℕ → List ℕ → ℕ → List ℕ) (g0 : ℕ) (req : GenRequest)
    (_htext : pyStrip req.text = "")
    (hbad : (∃ s, req.attempt_number = some (PyVal.nonNumeric s)) ∨
      (∃ s, req.base_blank_ratio = some (PyVal.nonNumeric s)) ∨
      (∃ s, req.step = some (PyVal.nonNumeric s)) ∨
      (∃ s, req.max_blank_ratio = some (PyVal.nonNumeric s)) ∨
      (∃ s, req.difficulty_level = some (PyVal.nonNumeric s))) :
    (∃ e, generate tokenize sample g0 req = .error e) ∧
      generate tokenize sample g0 req ≠
        .ok (.httpError 400 "text is required") := by
  obtain ⟨e, he⟩ := resolveParams_error_of_bad req hbad
  have hg := generate_error tokenize sample g0 req e he
  refine ⟨⟨e, hg⟩, ?_⟩
  rw [hg]
  intro hc
  exact Except.noConfusion hc

/-- Witness for C10: empty text plus a non-numeric `attempt_number`
raises instead of producing the 400 response. -/
theorem C10_conversion_before_check_witness :
    pyStrip (GenRequest.mk "" none none none
        (some (PyVal.nonNumeric "abc")) none none none none).text = "" ∧
      ((∃ e, generate nlpFox sampleTake 0
          (GenRequest.mk "" none none none
            (some (PyVal.nonNumeric "abc")) none none none none) =
          .error e) ∧
        generate nlpFox sampleTake 0
            (GenRequest.mk "" none none none
              (some (PyVal.nonNumeric "abc")) none none none none) ≠
          .ok (.httpError 400 "text is required")) :=
  ⟨by decide,
    C10_conversion_before_check nlpFox sampleTake 0
      (GenRequest.mk "" none none none (some (PyVal.nonNumeric "abc"))
        none none none none)
      (by decide) (Or.inl ⟨"abc", rfl⟩)⟩
